import Mathlib

/-!
Verification development for the cfs-quota-burst agent core: the cgroup
path-resolution layer (`pkg/koordlet/util`), the state synchronizer
(`pkg/koordlet/statesinformer`) and the metric-collection pipeline
(`pkg/koordlet/metricsadvisor`). Go strings are modelled as `List Char`
(`Str`); Go's two-value `(T, error)` returns are modelled as `Except Str T`
or as explicit pairs where the partial result matters; file reads and other
effects are passed in as explicit arguments.
-/

namespace CfsQuotaBurst

/-- Go strings, modelled as lists of characters. -/
abbrev Str := List Char

/-! ## Path model

Go composes control-file paths with `path/filepath.Join`, which concatenates
its arguments with `/` and cleans the result (collapsing duplicate and
trailing separators). For the dot-free path components used by this
repository, `Join` is exactly: split both arguments into their non-empty
`/`-separated segments, interleave the segments with `/`, and keep the
leading `/` of an absolute first argument. -/

/-- The non-empty `/`-separated segments of a path string. -/
def pathSegments (s : Str) : List Str :=
  (s.splitOn '/').filter (fun l => !l.isEmpty)

/-- `filepath.Join(a, b)` for dot-free components: clean segment
concatenation, preserving absoluteness of `a`. -/
def joinPath (a b : Str) : Str :=
  (if a.head? = some '/' then ['/'] else []) ++
    List.intercalate ['/'] (pathSegments a ++ pathSegments b)

theorem not_pred_of_mem_splitOnP (p : Char → Bool) :
    ∀ (s : List Char), ∀ l ∈ s.splitOnP p, ∀ a ∈ l, p a = false := by
  intro s
  induction s with
  | nil =>
    intro l hl a ha
    simp only [List.splitOnP_nil, List.mem_singleton] at hl
    subst hl
    exact absurd ha (List.not_mem_nil a)
  | cons x xs ih =>
    intro l hl a ha
    rw [List.splitOnP_cons] at hl
    by_cases hx : p x
    · rw [if_pos hx] at hl
      rcases List.mem_cons.mp hl with h | h
      · subst h; exact absurd ha (List.not_mem_nil a)
      · exact ih l h a ha
    · rw [if_neg hx] at hl
      rcases hsp : xs.splitOnP p with _ | ⟨hd, tl⟩
      · exact absurd hsp (List.splitOnP_ne_nil p xs)
      · rw [hsp] at hl
        simp only [List.modifyHead, List.mem_cons] at hl
        rcases hl with h | h
        · subst h
          rcases List.mem_cons.mp ha with h' | h'
          · subst h'; exact Bool.eq_false_iff.mpr hx
          · exact ih hd (hsp ▸ List.mem_cons_self hd tl) a h'
        · exact ih l (hsp ▸ List.mem_cons_of_mem hd h) a ha

theorem slash_not_mem_of_mem_splitOn {s l : Str} (h : l ∈ s.splitOn '/') :
    '/' ∉ l := by
  intro hmem
  have := not_pred_of_mem_splitOnP (fun c => c == '/') s l h '/' hmem
  simp at this

theorem mem_pathSegments_ne_nil {s l : Str} (h : l ∈ pathSegments s) :
    l ≠ [] := by
  have := List.of_mem_filter h
  simpa using this

theorem mem_pathSegments_slash_free {s l : Str} (h : l ∈ pathSegments s) :
    '/' ∉ l :=
  slash_not_mem_of_mem_splitOn (List.mem_of_mem_filter h)

theorem splitOn_slash_cons (t : Str) :
    ('/' :: t).splitOn '/' = [] :: t.splitOn '/' := by
  simp [List.splitOn, List.splitOnP_cons]

theorem pathSegments_intercalate {segs : List Str} (hne : segs ≠ [])
    (hnil : ∀ l ∈ segs, l ≠ []) (hsl : ∀ l ∈ segs, '/' ∉ l) :
    pathSegments (List.intercalate ['/'] segs) = segs := by
  unfold pathSegments
  rw [List.splitOn_intercalate segs '/' hsl hne]
  rw [List.filter_eq_self]
  intro l hl
  simpa using hnil l hl

/-- `pathSegments` is a homomorphism from `joinPath` to list append. -/
theorem pathSegments_joinPath (a b : Str) :
    pathSegments (joinPath a b) = pathSegments a ++ pathSegments b := by
  unfold joinPath
  rcases hsegs : pathSegments a ++ pathSegments b with _ | ⟨s0, rest⟩
  · by_cases hab : a.head? = some '/'
    · rw [if_pos hab]; decide
    · rw [if_neg hab]; decide
  · have hne : pathSegments a ++ pathSegments b ≠ [] := by
      rw [hsegs]; exact List.cons_ne_nil s0 rest
    have hnil : ∀ l ∈ pathSegments a ++ pathSegments b, l ≠ [] := by
      intro l hl
      rcases List.mem_append.mp hl with h | h
      · exact mem_pathSegments_ne_nil h
      · exact mem_pathSegments_ne_nil h
    have hsl : ∀ l ∈ pathSegments a ++ pathSegments b, '/' ∉ l := by
      intro l hl
      rcases List.mem_append.mp hl with h | h
      · exact mem_pathSegments_slash_free h
      · exact mem_pathSegments_slash_free h
    rw [← hsegs]
    by_cases hab : a.head? = some '/'
    · rw [if_pos hab, List.singleton_append]
      unfold pathSegments
      rw [splitOn_slash_cons]
      have := pathSegments_intercalate hne hnil hsl
      unfold pathSegments at this
      simpa using this
    · rw [if_neg hab, List.nil_append]
      exact pathSegments_intercalate hne hnil hsl

/-! ## Cgroup resource descriptors and path resolution

Embedding of `pkg/koordlet/util` (source file `part_000`, package `util`).
The `system` helper package (`pkg/koordlet/util/system`) is repository code
not present under `src/`; its pieces are modelled from the spec where
noted. -/

/-- Cgroup hierarchy version. -/
inductive CgroupVersion
  | v1
  | v2
deriving DecidableEq

/-- Modelled from the spec: the cgroup resource descriptor (missing
`system` package) — "a static mapping from a resource-type enumeration to
the on-disk representation needed to locate it: for cgroup v1, a subsystem
name plus a filename; for cgroup v2, a filename only". -/
structure CgroupResource where
  subfs : Str
  filename : Str
deriving DecidableEq

/-- Resource-type enumeration values are names (Go `system.ResourceType`
is a string type). -/
abbrev ResourceType := Str

def CPUProcsName : ResourceType := "CPUProcs".toList

def CPUCFSQuotaName : ResourceType := "CPUCFSQuota".toList

def CPUCFSPeriodName : ResourceType := "CPUCFSPeriod".toList

/-- Modelled from the spec: the static resource-descriptor registry of the
missing `system` package, covering the resource kinds the spec names
("CPU process list", "CPU quota"). -/
def defaultResourceRegistry : List (ResourceType × CgroupResource) :=
  [(CPUProcsName, ⟨"cpu".toList, "cgroup.procs".toList⟩),
   (CPUCFSQuotaName, ⟨"cpu".toList, "cpu.cfs_quota_us".toList⟩),
   (CPUCFSPeriodName, ⟨"cpu".toList, "cpu.cfs_period_us".toList⟩)]

/-- Modelled from the spec: `system.GetCgroupResource` (missing `system`
package) — looks up the descriptor for a resource type; "an unmapped type
is a hard error, never a silent default". -/
def GetCgroupResource (registry : List (ResourceType × CgroupResource))
    (resourceType : ResourceType) : Except Str CgroupResource :=
  match registry.lookup resourceType with
  | some r => Except.ok r
  | none => Except.error ("unsupported resource type".toList)

/-- Container-runtime naming conventions for container cgroup directories:
a "scope"-suffixed form (systemd driver) and a plain directory form
(cgroupfs driver). -/
inductive DriverConvention
  | scopeSuffixed
  | directory
deriving DecidableEq

/-- Modelled from the spec: `system.CgroupPathFormatter`'s container
directory formatter (missing `system` package) — the scope-suffixed
convention maps identity `"7712555c"` to `"docker-7712555c.scope"`; the
directory convention uses the identity itself. -/
def FormatContainerCgroupSegment : DriverConvention → Str → Str
  | DriverConvention.scopeSuffixed, id => "docker-".toList ++ id ++ ".scope".toList
  | DriverConvention.directory, id => id

/-- Modelled from the spec: `system.CgroupPathFormatter.ContainerIDParser`
(missing `system` package) — the inverse of the formatter; a basename that
does not match the convention is a parse error. -/
def ParseContainerIdentity : DriverConvention → Str → Except Str Str
  | DriverConvention.scopeSuffixed, s =>
    if s.take 7 = "docker-".toList ∧ 13 ≤ s.length ∧
        s.drop (s.length - 6) = ".scope".toList then
      Except.ok ((s.drop 7).take (s.length - 13))
    else
      Except.error ("fail to parse container id from basename".toList)
  | DriverConvention.directory, s => Except.ok s

/-- `util.ParseContainerID`: parse container ID from the container base
path, delegating to the formatter's parser. -/
def ParseContainerID (conv : DriverConvention) (basename : Str) :
    Except Str Str :=
  ParseContainerIdentity conv basename

/-- Process-wide cgroup configuration (`system.Conf.CgroupRootDir`,
`system.GetCurrentCgroupVersion`, `system.CgroupPathFormatter`). -/
structure SystemConf where
  cgroupRootDir : Str
  cgroupVersion : CgroupVersion
  driverConvention : DriverConvention

def GetCurrentCgroupVersion (conf : SystemConf) : CgroupVersion :=
  conf.cgroupVersion

/-- Container status: the container identity recorded for a running
container. -/
structure ContainerStatus where
  containerID : Str
deriving DecidableEq

/-- Modelled from the spec: `GetContainerCgroupParentDir` (missing from
`src/`) — "composes the container's cgroup directory by appending a
runtime-specific path segment derived from containerIdentity to
podCgroupParentDir"; a malformed (empty) identity is an error. -/
def GetContainerCgroupParentDir (conf : SystemConf) (podParentDir : Str)
    (c : ContainerStatus) : Except Str Str :=
  if c.containerID.isEmpty then
    Except.error ("container id is invalid".toList)
  else
    Except.ok (joinPath podParentDir
      (FormatContainerCgroupSegment conf.driverConvention c.containerID))

/-- Modelled from the spec: `system.GetCgroupFilePath` (missing `system`
package) — composes `{cgroupRootMountPoint}/{subsystem if v1}/{dir}/{filename}`;
under v2 the subsystem segment is omitted. -/
def GetCgroupFilePath (conf : SystemConf) (containerDir : Str)
    (r : CgroupResource) : Str :=
  match conf.cgroupVersion with
  | CgroupVersion.v1 =>
    joinPath conf.cgroupRootDir (joinPath r.subfs (joinPath containerDir r.filename))
  | CgroupVersion.v2 =>
    joinPath conf.cgroupRootDir (joinPath containerDir r.filename)

/-- `util.GetContainerCgroupPath`: gets the file path of the given
container's cgroup. Returns Go's `(string, error)` pair: the path is empty
whenever the error is set. -/
def GetContainerCgroupPath (conf : SystemConf)
    (registry : List (ResourceType × CgroupResource)) (podParentDir : Str)
    (c : ContainerStatus) (resourceType : ResourceType) : Str × Option Str :=
  match GetCgroupResource registry resourceType with
  | Except.error e => ([], some ("failed to get resource type, err: ".toList ++ e))
  | Except.ok resource =>
    match GetContainerCgroupParentDir conf podParentDir c with
    | Except.error e =>
      ([], some ("failed to get container cgroup path, err: ".toList ++ e))
    | Except.ok containerPath => (GetCgroupFilePath conf containerPath resource, none)

/-- `util.GetContainerCgroupCPUProcsPath`. -/
def GetContainerCgroupCPUProcsPath (conf : SystemConf)
    (registry : List (ResourceType × CgroupResource)) (podParentDir : Str)
    (c : ContainerStatus) : Str × Option Str :=
  GetContainerCgroupPath conf registry podParentDir c CPUProcsName

/-- `util.GetContainerCgroupPerfPath`: v2 joins root and container dir;
v1 interposes the `perf_event/` subsystem segment. -/
def GetContainerCgroupPerfPath (conf : SystemConf) (podParentDir : Str)
    (c : ContainerStatus) : Except Str Str :=
  match GetContainerCgroupParentDir conf podParentDir c with
  | Except.error e => Except.error e
  | Except.ok containerPath =>
    if GetCurrentCgroupVersion conf = CgroupVersion.v2 then
      Except.ok (joinPath conf.cgroupRootDir containerPath)
    else
      Except.ok (joinPath conf.cgroupRootDir
        (joinPath "perf_event/".toList containerPath))

/-- `util.IsValidContainerCgroupDir`: a directory is a container cgroup
dir iff its basename parses as a container ID. -/
def IsValidContainerCgroupDir (conv : DriverConvention)
    (containerParentDirBase : Str) : Bool :=
  match ParseContainerIdentity conv containerParentDirBase with
  | Except.ok _ => true
  | Except.error _ => false

/-! ## Process-list parsing (`cgroup.procs`) -/

/-- Strict decimal parse of one line: non-empty, all decimal digits, and
the value fits an unsigned 32-bit integer (Go `strconv.ParseUint(l, 10, 32)`). -/
def parsePIDLine (l : Str) : Option Nat :=
  if !l.isEmpty ∧ l.all Char.isDigit then
    let v := l.foldl (fun acc c => acc * 10 + (c.toNat - '0'.toNat)) 0
    if v < 2 ^ 32 then some v else none
  else none

/-- Parse a list of non-empty lines into PIDs; any unparseable line is a
hard error for the whole read, with no partial result. -/
def parsePIDLines : List Str → Except Str (List Nat)
  | [] => Except.ok []
  | l :: rest =>
    match parsePIDLine l with
    | none => Except.error ("failed to parse process id".toList)
    | some n =>
      match parsePIDLines rest with
      | Except.error e => Except.error e
      | Except.ok ns => Except.ok (n :: ns)

/-- Modelled from the spec: `system.ParseCgroupProcs` (missing `system`
package) — "parses one decimal integer per non-empty line", treating "any
line that fails to parse as a hard error for the whole read, aborting with
no partial result". -/
def ParseCgroupProcs (content : Str) : Except Str (List Nat) :=
  parsePIDLines ((content.splitOn '\n').filter (fun l => !l.isEmpty))

/-- `util.GetPIDsInContainer`: resolve the container's `cgroup.procs`
path, read it (the filesystem read is passed in explicitly), and parse the
content. -/
def GetPIDsInContainer (conf : SystemConf)
    (registry : List (ResourceType × CgroupResource)) (podParentDir : Str)
    (c : ContainerStatus) (readFile : Str → Except Str Str) :
    Except Str (List Nat) :=
  match GetContainerCgroupCPUProcsPath conf registry podParentDir c with
  | (_, some e) => Except.error e
  | (cgroupPath, none) =>
    match readFile cgroupPath with
    | Except.error e => Except.error e
    | Except.ok rawContent => ParseCgroupProcs rawContent

/-! ## State synchronizer (`statesinformer/impl/states_informer.go`) -/

/-- The view of one informer plugin the aggregate readiness check reads:
its current `HasSynced` flag. -/
structure InformerPluginView where
  hasSynced : Bool
deriving DecidableEq

/-- `statesInformer.HasSynced`: the loop over the plugin registry that
returns false at the first unsynced plugin and true otherwise. -/
def statesInformerHasSynced : List InformerPluginView → Bool
  | [] => true
  | p :: rest => if !p.hasSynced then false else statesInformerHasSynced rest

/-- The view of one informer plugin `Run`'s synchronization barrier reads:
the instant its `HasSynced` flag becomes true (`none` = never syncs). -/
structure InformerPluginRunView where
  syncedAt : Option Nat
deriving DecidableEq

/-- `cache.WaitForCacheSync(stopCh, ...)`, with the stop signal firing at
instant `stopAt`: true iff every plugin's sync flag becomes true strictly
before the signal. -/
def waitForCacheSync (stopAt : Nat) (ps : List InformerPluginRunView) : Bool :=
  ps.all fun p =>
    match p.syncedAt with
    | some t => decide (t < stopAt)
    | none => false

/-- Mutable state of the states informer: its aggregate `started` flag. -/
structure StatesInformerState where
  started : Bool
deriving DecidableEq

def informerSyncTimeoutMsg : Str :=
  "timed out waiting for states informer caches to sync".toList

/-- `statesInformer.Run`: shallow embedding of the sequential structure of
the Go method. Plugin setup/start are abstracted into each plugin's
`syncedAt` instant; blocking on `stopCh` is modelled by the run returning
once the signal (at `stopAt`) has fired. Returns the final informer state
together with Go's `error` result. -/
def statesInformerRun (stopAt : Nat) (ps : List InformerPluginRunView)
    (s : StatesInformerState) : StatesInformerState × Option Str :=
  if !waitForCacheSync stopAt ps then
    (s, some informerSyncTimeoutMsg)
  else
    ({ started := true }, none)

/-! ## Metric pipeline (`metricsadvisor`, collector `nodeinfo`) -/

/-- Host CPU topology as gathered from the node
(`koordletutil.GetLocalCPUInfo`); the payload content is abstract. -/
structure LocalCPUInfo where
  processorInfos : List Nat
  totalInfo : Nat
deriving DecidableEq

/-- `metriccache.NodeCPUInfo`, the value written to the metric cache. -/
structure NodeCPUInfo where
  processorInfos : List Nat
  totalInfo : Nat
deriving DecidableEq

def NodeCPUInfoKey : Str := "node_cpu_info".toList

/-- The metric cache (`metriccache.KVStorage`) modelled as the log of
`Set` writes, in order; the current value of a key is its last write. -/
abbrev KVStorage := List (Str × NodeCPUInfo)

/-- `storage.Set(key, value)`: append one write to the log. -/
def storageSet (st : KVStorage) (k : Str) (v : NodeCPUInfo) : KVStorage :=
  st ++ [(k, v)]

/-- Last-write-wins read of the cache. -/
def storageGet (st : KVStorage) (k : Str) : Option NodeCPUInfo :=
  (st.reverse.find? (fun e => e.1 == k)).map (fun e => e.2)

/-- Mutable state of the node info collector: the shared storage it writes
and its own `started` flag. -/
structure NodeInfoCollectorState where
  storage : KVStorage
  started : Bool
deriving DecidableEq

/-- `nodeInfoCollector.collectNodeCPUInfo`: the gather result
(`GetLocalCPUInfo`) is passed in explicitly; on success it performs the
single cache write for `NodeCPUInfoKey` and returns the new storage, on
failure it returns the error and writes nothing. -/
def collectNodeCPUInfo (gather : Except Str LocalCPUInfo)
    (storage : KVStorage) : Except Str KVStorage :=
  match gather with
  | Except.error e => Except.error e
  | Except.ok localCPUInfo =>
    Except.ok (storageSet storage NodeCPUInfoKey
      ⟨localCPUInfo.processorInfos, localCPUInfo.totalInfo⟩)

/-- `nodeInfoCollector.collectNodeInfo`: one collection cycle. On gather
failure it logs and returns with the state unchanged; on success it flips
the `started` flag. It returns no error to the scheduling loop. -/
def collectNodeInfo (gather : Except Str LocalCPUInfo)
    (n : NodeInfoCollectorState) : NodeInfoCollectorState :=
  match collectNodeCPUInfo gather n.storage with
  | Except.error _ => n
  | Except.ok storage => { storage := storage, started := true }

/-- The `wait.Until` scheduling loop: run one cycle per gather result, in
order, until the stop signal (end of the list). -/
def runCollectCycles (gathers : List (Except Str LocalCPUInfo))
    (n : NodeInfoCollectorState) : NodeInfoCollectorState :=
  gathers.foldl (fun st g => collectNodeInfo g st) n

/-- The view of one collector the metric advisor reads: its name, its
`Enabled()` gate and its `Started()` flag. -/
structure CollectorView where
  name : Str
  enabled : Bool
  started : Bool
deriving DecidableEq

/-- Modelled from the spec: `framework.CollectorsHasStarted` (missing
`framework` package) — "readiness aggregation only over *enabled*
collectors". -/
def CollectorsHasStarted (cs : List CollectorView) : Bool :=
  cs.all fun c => !c.enabled || c.started

/-- `metricAdvisor.HasSynced`. -/
def metricAdvisorHasSynced (cs : List CollectorView) : Bool :=
  CollectorsHasStarted cs

/-- `framework.Config`: the collection interval, in nanoseconds (Go
`time.Duration`). -/
structure AdvisorConfig where
  collectResUsedIntervalNanos : Nat
deriving DecidableEq

/-- Go `time.Second` in nanoseconds. -/
def nanosPerSecond : Nat := 1000000000

/-- `metricAdvisor.setup`: the enabled collectors, in order, whose `Setup`
is invoked; disabled collectors are skipped. -/
def metricAdvisorSetup (cs : List CollectorView) : List Str :=
  (cs.filter (fun c => c.enabled)).map (fun c => c.name)

/-- Observable outcome of `metricAdvisor.Run`: Go's `error` result, the
collectors that were set up, and the collectors whose `Run` was started. -/
structure AdvisorRunOutcome where
  err : Option Str
  setupNames : List Str
  startedNames : List Str
deriving DecidableEq

/-- `metricAdvisor.Run`: below the one-second usability threshold the
pipeline is disabled and `Run` returns `nil` immediately, with no setup
and no collector started; otherwise it sets up and starts exactly the
enabled collectors, then blocks on the stop signal and returns `nil`. -/
def metricAdvisorRun (cfg : AdvisorConfig) (cs : List CollectorView) :
    AdvisorRunOutcome :=
  if cfg.collectResUsedIntervalNanos < nanosPerSecond then
    { err := none, setupNames := [], startedNames := [] }
  else
    { err := none,
      setupNames := metricAdvisorSetup cs,
      startedNames := (cs.filter (fun c => c.enabled)).map (fun c => c.name) }

/-! ## PodMeta (`statesinformer/api.go`) -/

/-- The pod fields this core reads, plus fields (`uid`,
`resourceVersion`) standing for everything `Key()` must not depend on. -/
structure Pod where
  nameSpace : Str
  name : Str
  uid : Str
  resourceVersion : Str
  phase : Str
deriving DecidableEq

def PodRunning : Str := "Running".toList

def PodPending : Str := "Pending".toList

/-- Modelled from the spec: `util.GetPodKey` (missing `util` package) —
"a deterministic namespace/name-based identifier". -/
def GetPodKey (p : Pod) : Str :=
  p.nameSpace ++ '/' :: p.name

/-- `statesinformer.PodMeta`. Go pointer fields are `Option`s: `pod = none`
models a nil `Pod` reference. -/
structure PodMeta where
  pod : Option Pod
  cgroupDir : Str
deriving DecidableEq

/-- `PodMeta.Key` on a possibly-nil receiver: empty-string sentinel when
the meta or its pod reference is absent. -/
def podMetaKey : Option PodMeta → Str
  | none => []
  | some m =>
    match m.pod with
    | none => []
    | some p => GetPodKey p

/-- `PodMeta.IsRunningOrPending` on a possibly-nil receiver. -/
def podMetaIsRunningOrPending : Option PodMeta → Bool
  | none => false
  | some m =>
    match m.pod with
    | none => false
    | some p => p.phase == PodRunning || p.phase == PodPending

/-- The upstream generated `corev1.Pod.DeepCopy` (k8s.io/api machine-
generated code): it begins with `if in == nil { return nil }`, so a nil
receiver yields nil rather than a panic; Lean values are immutable, so the
copy is the value itself. -/
def podDeepCopy : Option Pod → Option Pod
  | none => none
  | some p => some p

/-- `PodMeta.DeepCopy` on a possibly-nil receiver. A nil receiver panics
when `in.Pod` is dereferenced — modelled as a `none` result; a non-nil
receiver builds a fresh `PodMeta` from `in.Pod.DeepCopy()` and
`in.CgroupDir`. -/
def podMetaDeepCopy : Option PodMeta → Option PodMeta
  | none => none
  | some m => some { pod := podDeepCopy m.pod, cgroupDir := m.cgroupDir }

/-! ## Theorems -/

theorem parsePIDLines_error_of_bad :
    ∀ ls : List Str, (∃ l ∈ ls, parsePIDLine l = none) →
      ∃ e, parsePIDLines ls = Except.error e := by
  intro ls
  induction ls with
  | nil =>
    rintro ⟨l, hl, -⟩
    exact absurd hl (List.not_mem_nil l)
  | cons l rest ih =>
    rintro ⟨l', hl', hbad⟩
    rcases hpl : parsePIDLine l with _ | n
    · exact ⟨"failed to parse process id".toList, by simp [parsePIDLines, hpl]⟩
    · have hl'' : l' ∈ rest := by
        rcases List.mem_cons.mp hl' with h | h
        · subst h; rw [hpl] at hbad; exact absurd hbad (by simp)
        · exact h
      obtain ⟨e, he⟩ := ih ⟨l', hl'', hbad⟩
      exact ⟨e, by simp [parsePIDLines, hpl, he]⟩

/-- C2: for every supported runtime naming convention and every container
identity, parsing the formatted cgroup directory segment recovers the
identity exactly: `ParseContainerID (FormatContainerCgroupSegment id) = ok id`. -/
theorem containerID_roundTrip (conv : DriverConvention) (id : Str) :
    ParseContainerID conv (FormatContainerCgroupSegment conv id) =
      Except.ok id := by
  cases conv with
  | directory => rfl
  | scopeSuffixed =>
    have hpre : ("docker-".toList).length = 7 := rfl
    have hsuf : (".scope".toList).length = 6 := rfl
    show ParseContainerIdentity DriverConvention.scopeSuffixed
        ("docker-".toList ++ id ++ ".scope".toList) = Except.ok id
    set s : Str := "docker-".toList ++ id ++ ".scope".toList with hs
    have hlen : s.length = id.length + 13 := by
      rw [hs]; simp [List.length_append]
    have htake : s.take 7 = "docker-".toList := by
      rw [hs, List.append_assoc]
      exact List.take_left' hpre
    have hdrop6 : s.drop (s.length - 6) = ".scope".toList := by
      rw [hs]
      apply List.drop_left'
      simp [List.length_append, hlen, hs]
    have hdrop7 : s.drop 7 = id ++ ".scope".toList := by
      rw [hs, List.append_assoc]
      exact List.drop_left' hpre
    have hcond : s.take 7 = "docker-".toList ∧ 13 ≤ s.length ∧
        s.drop (s.length - 6) = ".scope".toList :=
      ⟨htake, by omega, hdrop6⟩
    show (if s.take 7 = "docker-".toList ∧ 13 ≤ s.length ∧
        s.drop (s.length - 6) = ".scope".toList then
          Except.ok ((s.drop 7).take (s.length - 13))
        else Except.error ("fail to parse container id from basename".toList)) =
      Except.ok id
    rw [if_pos hcond]
    congr 1
    rw [hdrop7, hlen]
    have : id.length + 13 - 13 = id.length := by omega
    rw [this]
    exact List.take_left' rfl

/-- C3: for every resource type absent from the resource-descriptor
registry, `GetContainerCgroupPath` returns an empty path together with an
error — never a fallback path. -/
theorem unknown_resource_error (conf : SystemConf)
    (registry : List (ResourceType × CgroupResource)) (podParentDir : Str)
    (c : ContainerStatus) (rt : ResourceType)
    (h : registry.lookup rt = none) :
    (GetContainerCgroupPath conf registry podParentDir c rt).1 = [] ∧
    ∃ e, (GetContainerCgroupPath conf registry podParentDir c rt).2 = some e := by
  simp [GetContainerCgroupPath, GetCgroupResource, h]

theorem unknown_resource_error_witness :
    (defaultResourceRegistry.lookup ("MemoryLimit".toList) = none) ∧
    (GetContainerCgroupPath ⟨"/sys/fs/cgroup".toList, CgroupVersion.v1,
        DriverConvention.scopeSuffixed⟩ defaultResourceRegistry
        ("kubepods.slice/".toList) ⟨"7712555c".toList⟩
        ("MemoryLimit".toList)).1 = [] ∧
    ∃ e, (GetContainerCgroupPath ⟨"/sys/fs/cgroup".toList, CgroupVersion.v1,
        DriverConvention.scopeSuffixed⟩ defaultResourceRegistry
        ("kubepods.slice/".toList) ⟨"7712555c".toList⟩
        ("MemoryLimit".toList)).2 = some e := by
  refine ⟨rfl, ?_⟩
  exact unknown_resource_error _ defaultResourceRegistry _ _ _ rfl

/-- C4: the process-list parse step maps `"123\n456\n789\n"` to
`{123, 456, 789}`, maps the empty content to the empty set, and any
content containing a non-empty line that is not a decimal integer yields
an error with no partial result. -/
theorem parseCgroupProcs_spec :
    ParseCgroupProcs ("123\n456\n789\n".toList) = Except.ok [123, 456, 789]
  ∧ ParseCgroupProcs ([] : Str) = Except.ok []
  ∧ ∀ content : Str,
      (∃ l ∈ (content.splitOn '\n').filter (fun l => !l.isEmpty),
        parsePIDLine l = none) →
      ∃ e, ParseCgroupProcs content = Except.error e := by
  refine ⟨rfl, rfl, ?_⟩
  intro content hbad
  exact parsePIDLines_error_of_bad _ hbad

theorem parseCgroupProcs_spec_witness :
    (∃ l ∈ (("123\nabc\n".toList : Str).splitOn '\n').filter
        (fun l => !l.isEmpty), parsePIDLine l = none) ∧
    ∃ e, ParseCgroupProcs ("123\nabc\n".toList) = Except.error e := by
  refine ⟨⟨"abc".toList, by decide, by decide⟩, ?_⟩
  exact parseCgroupProcs_spec.2.2 ("123\nabc\n".toList)
    ⟨"abc".toList, by decide, by decide⟩

/-- C1: for every pod cgroup parent directory, container identity and
mapped resource type, resolving the control-file path under cgroup v1
yields `{cgroupRootMountPoint}/{subsystem}/{containerCgroupDir}/{filename}`
(containing the resource's subsystem segment), while under cgroup v2 —
same root, same naming convention — it yields
`{cgroupRootMountPoint}/{containerCgroupDir}/{filename}` with the
subsystem segment omitted and all other components identical; likewise the
perf path interposes the `perf_event` subsystem segment only under v1. -/
theorem cgroupPath_version_switch (conf1 conf2 : SystemConf)
    (registry : List (ResourceType × CgroupResource)) (podParentDir : Str)
    (c : ContainerStatus) (rt : ResourceType) (r : CgroupResource)
    (h1 : conf1.cgroupVersion = CgroupVersion.v1)
    (h2 : conf2.cgroupVersion = CgroupVersion.v2)
    (hroot : conf2.cgroupRootDir = conf1.cgroupRootDir)
    (hconv : conf2.driverConvention = conf1.driverConvention)
    (hres : GetCgroupResource registry rt = Except.ok r)
    (hc : c.containerID ≠ []) :
    ∃ containerDir,
      GetContainerCgroupParentDir conf1 podParentDir c = Except.ok containerDir ∧
      GetContainerCgroupParentDir conf2 podParentDir c = Except.ok containerDir ∧
      GetContainerCgroupPath conf1 registry podParentDir c rt =
        (joinPath conf1.cgroupRootDir
          (joinPath r.subfs (joinPath containerDir r.filename)), none) ∧
      GetContainerCgroupPath conf2 registry podParentDir c rt =
        (joinPath conf1.cgroupRootDir (joinPath containerDir r.filename), none) ∧
      pathSegments (GetContainerCgroupPath conf1 registry podParentDir c rt).1 =
        pathSegments conf1.cgroupRootDir ++ pathSegments r.subfs ++
          pathSegments containerDir ++ pathSegments r.filename ∧
      pathSegments (GetContainerCgroupPath conf2 registry podParentDir c rt).1 =
        pathSegments conf1.cgroupRootDir ++
          pathSegments containerDir ++ pathSegments r.filename ∧
      GetContainerCgroupPerfPath conf1 podParentDir c =
        Except.ok (joinPath conf1.cgroupRootDir
          (joinPath ("perf_event/".toList) containerDir)) ∧
      GetContainerCgroupPerfPath conf2 podParentDir c =
        Except.ok (joinPath conf1.cgroupRootDir containerDir) := by
  have hempty : c.containerID.isEmpty = false := by
    simpa using hc
  refine ⟨joinPath podParentDir
    (FormatContainerCgroupSegment conf1.driverConvention c.containerID),
    ?_, ?_, ?_, ?_, ?_, ?_, ?_, ?_⟩
  · simp [GetContainerCgroupParentDir, hempty]
  · simp [GetContainerCgroupParentDir, hempty, hconv]
  · simp [GetContainerCgroupPath, hres, GetContainerCgroupParentDir, hempty,
      GetCgroupFilePath, h1]
  · simp [GetContainerCgroupPath, hres, GetContainerCgroupParentDir, hempty,
      GetCgroupFilePath, h2, hroot, hconv]
  · simp only [GetContainerCgroupPath, hres, GetContainerCgroupParentDir,
      hempty, Bool.false_eq_true, if_false, GetCgroupFilePath, h1]
    rw [pathSegments_joinPath, pathSegments_joinPath, pathSegments_joinPath]
    simp [List.append_assoc]
  · simp only [GetContainerCgroupPath, hres, GetContainerCgroupParentDir,
      hempty, Bool.false_eq_true, if_false, GetCgroupFilePath, h2, hroot, hconv]
    rw [pathSegments_joinPath, pathSegments_joinPath]
    simp [List.append_assoc]
  · simp [GetContainerCgroupPerfPath, GetContainerCgroupParentDir, hempty,
      GetCurrentCgroupVersion, h1]
  · simp [GetContainerCgroupPerfPath, GetContainerCgroupParentDir, hempty,
      GetCurrentCgroupVersion, h2, hroot, hconv]

theorem cgroupPath_version_switch_witness :
    ∃ containerDir,
      GetContainerCgroupParentDir
        ⟨"/sys/fs/cgroup".toList, CgroupVersion.v1, DriverConvention.scopeSuffixed⟩
        ("kubepods.slice/kubepods-pod7712555c.slice/".toList)
        ⟨"7712555c".toList⟩ = Except.ok containerDir ∧
      GetContainerCgroupParentDir
        ⟨"/sys/fs/cgroup".toList, CgroupVersion.v2, DriverConvention.scopeSuffixed⟩
        ("kubepods.slice/kubepods-pod7712555c.slice/".toList)
        ⟨"7712555c".toList⟩ = Except.ok containerDir ∧
      GetContainerCgroupPath
        ⟨"/sys/fs/cgroup".toList, CgroupVersion.v1, DriverConvention.scopeSuffixed⟩
        defaultResourceRegistry
        ("kubepods.slice/kubepods-pod7712555c.slice/".toList)
        ⟨"7712555c".toList⟩ CPUProcsName =
        (joinPath ("/sys/fs/cgroup".toList)
          (joinPath ("cpu".toList) (joinPath containerDir ("cgroup.procs".toList))), none) ∧
      GetContainerCgroupPath
        ⟨"/sys/fs/cgroup".toList, CgroupVersion.v2, DriverConvention.scopeSuffixed⟩
        defaultResourceRegistry
        ("kubepods.slice/kubepods-pod7712555c.slice/".toList)
        ⟨"7712555c".toList⟩ CPUProcsName =
        (joinPath ("/sys/fs/cgroup".toList)
          (joinPath containerDir ("cgroup.procs".toList)), none) ∧
      pathSegments (GetContainerCgroupPath
        ⟨"/sys/fs/cgroup".toList, CgroupVersion.v1, DriverConvention.scopeSuffixed⟩
        defaultResourceRegistry
        ("kubepods.slice/kubepods-pod7712555c.slice/".toList)
        ⟨"7712555c".toList⟩ CPUProcsName).1 =
        pathSegments ("/sys/fs/cgroup".toList) ++ pathSegments ("cpu".toList) ++
          pathSegments containerDir ++ pathSegments ("cgroup.procs".toList) ∧
      pathSegments (GetContainerCgroupPath
        ⟨"/sys/fs/cgroup".toList, CgroupVersion.v2, DriverConvention.scopeSuffixed⟩
        defaultResourceRegistry
        ("kubepods.slice/kubepods-pod7712555c.slice/".toList)
        ⟨"7712555c".toList⟩ CPUProcsName).1 =
        pathSegments ("/sys/fs/cgroup".toList) ++
          pathSegments containerDir ++ pathSegments ("cgroup.procs".toList) ∧
      GetContainerCgroupPerfPath
        ⟨"/sys/fs/cgroup".toList, CgroupVersion.v1, DriverConvention.scopeSuffixed⟩
        ("kubepods.slice/kubepods-pod7712555c.slice/".toList)
        ⟨"7712555c".toList⟩ =
        Except.ok (joinPath ("/sys/fs/cgroup".toList)
          (joinPath ("perf_event/".toList) containerDir)) ∧
      GetContainerCgroupPerfPath
        ⟨"/sys/fs/cgroup".toList, CgroupVersion.v2, DriverConvention.scopeSuffixed⟩
        ("kubepods.slice/kubepods-pod7712555c.slice/".toList)
        ⟨"7712555c".toList⟩ =
        Except.ok (joinPath ("/sys/fs/cgroup".toList) containerDir) := by
  exact cgroupPath_version_switch
    ⟨"/sys/fs/cgroup".toList, CgroupVersion.v1, DriverConvention.scopeSuffixed⟩
    ⟨"/sys/fs/cgroup".toList, CgroupVersion.v2, DriverConvention.scopeSuffixed⟩
    defaultResourceRegistry
    ("kubepods.slice/kubepods-pod7712555c.slice/".toList)
    ⟨"7712555c".toList⟩ CPUProcsName
    ⟨"cpu".toList, "cgroup.procs".toList⟩
    rfl rfl rfl rfl rfl (by decide)

theorem statesInformerHasSynced_eq_all (ps : List InformerPluginView) :
    statesInformerHasSynced ps = ps.all (fun p => p.hasSynced) := by
  induction ps with
  | nil => rfl
  | cons p rest ih =>
    cases hp : p.hasSynced <;>
      simp [statesInformerHasSynced, List.all_cons, hp, ih]

/-- C5: for both plugin registries, the aggregate readiness flag is true
iff every individual enabled plugin's own flag is true (informer plugins
are all enabled); in particular any enabled-but-unready plugin makes the
aggregate false. -/
theorem aggregate_readiness (ps : List InformerPluginView)
    (cs : List CollectorView) :
    (statesInformerHasSynced ps = true ↔ ∀ p ∈ ps, p.hasSynced = true)
  ∧ (metricAdvisorHasSynced cs = true ↔
      ∀ c ∈ cs, c.enabled = true → c.started = true)
  ∧ (∀ p ∈ ps, p.hasSynced = false → statesInformerHasSynced ps = false)
  ∧ (∀ c ∈ cs, c.enabled = true → c.started = false →
      metricAdvisorHasSynced cs = false) := by
  have hinf : statesInformerHasSynced ps = true ↔ ∀ p ∈ ps, p.hasSynced = true := by
    rw [statesInformerHasSynced_eq_all, List.all_eq_true]
  have hcol : metricAdvisorHasSynced cs = true ↔
      ∀ c ∈ cs, c.enabled = true → c.started = true := by
    unfold metricAdvisorHasSynced CollectorsHasStarted
    rw [List.all_eq_true]
    constructor
    · intro h c hc hen
      have := h c hc
      rw [hen] at this
      simpa using this
    · intro h c hc
      cases hen : c.enabled with
      | false => simp
      | true => simpa using h c hc hen
  refine ⟨hinf, hcol, ?_, ?_⟩
  · intro p hp hfalse
    cases hall : statesInformerHasSynced ps with
    | false => rfl
    | true => rw [hinf.mp hall p hp] at hfalse; exact absurd hfalse (by simp)
  · intro c hc hen hfalse
    cases hall : metricAdvisorHasSynced cs with
    | false => rfl
    | true => rw [hcol.mp hall c hc hen] at hfalse; exact absurd hfalse (by simp)

theorem aggregate_readiness_witness :
    statesInformerHasSynced [⟨true⟩, ⟨false⟩] = false ∧
    metricAdvisorHasSynced
      [⟨"nodeInfo".toList, true, true⟩, ⟨"podCPU".toList, true, false⟩] = false := by
  constructor
  · exact (aggregate_readiness [⟨true⟩, ⟨false⟩] []).2.2.1
      ⟨false⟩ (by decide) rfl
  · exact (aggregate_readiness []
      [⟨"nodeInfo".toList, true, true⟩, ⟨"podCPU".toList, true, false⟩]).2.2.2
      ⟨"podCPU".toList, true, false⟩ (by simp) rfl rfl

/-- C6: `statesInformer.Run` returns the "timed out waiting for caches to
sync" error exactly when the stop signal fires before every registered
plugin has synced, leaving the informer state untouched; once all plugins
sync before the signal, it sets the aggregate started flag and returns
`nil` after the signal fires. -/
theorem statesInformer_run_barrier (stopAt : Nat)
    (ps : List InformerPluginRunView) (s : StatesInformerState) :
    (waitForCacheSync stopAt ps = true ↔
      ∀ p ∈ ps, ∃ t, p.syncedAt = some t ∧ t < stopAt)
  ∧ (waitForCacheSync stopAt ps = false →
      statesInformerRun stopAt ps s = (s, some informerSyncTimeoutMsg))
  ∧ (waitForCacheSync stopAt ps = true →
      statesInformerRun stopAt ps s = ({ started := true }, none)) := by
  refine ⟨?_, ?_, ?_⟩
  · unfold waitForCacheSync
    rw [List.all_eq_true]
    constructor
    · intro h p hp
      have := h p hp
      rcases hsync : p.syncedAt with _ | t
      · rw [hsync] at this; exact absurd this (by simp)
      · rw [hsync] at this; exact ⟨t, rfl, by simpa using this⟩
    · rintro h p hp
      obtain ⟨t, ht, hlt⟩ := h p hp
      rw [ht]
      simpa using hlt
  · intro h
    simp [statesInformerRun, h]
  · intro h
    simp [statesInformerRun, h]

theorem statesInformer_run_barrier_witness :
    (waitForCacheSync 5 [⟨some 0⟩, ⟨none⟩] = false) ∧
    statesInformerRun 5 [⟨some 0⟩, ⟨none⟩] ⟨false⟩ =
      (⟨false⟩, some informerSyncTimeoutMsg) ∧
    (waitForCacheSync 5 [⟨some 0⟩, ⟨some 3⟩] = true) ∧
    statesInformerRun 5 [⟨some 0⟩, ⟨some 3⟩] ⟨false⟩ =
      (⟨true⟩, none) := by
  refine ⟨rfl, ?_, rfl, ?_⟩
  · exact (statesInformer_run_barrier 5 [⟨some 0⟩, ⟨none⟩] ⟨false⟩).2.1 rfl
  · exact (statesInformer_run_barrier 5 [⟨some 0⟩, ⟨some 3⟩] ⟨false⟩).2.2 rfl

/-- C7: a collection cycle of the node CPU info collector leaves the cache
and the started flag unchanged when gathering fails, performs exactly one
cache write for `NodeCPUInfoKey` and then sets the started flag when
gathering succeeds, and a failed cycle never prevents subsequent cycles
(the scheduling loop continues and no error is surfaced). -/
theorem collector_cycle_policy (g : Except Str LocalCPUInfo)
    (n : NodeInfoCollectorState) :
    (∀ e, g = Except.error e → collectNodeInfo g n = n)
  ∧ (∀ info, g = Except.ok info →
      collectNodeInfo g n =
        { storage := storageSet n.storage NodeCPUInfoKey
            ⟨info.processorInfos, info.totalInfo⟩,
          started := true })
  ∧ (∀ e rest, runCollectCycles (Except.error e :: rest) n =
      runCollectCycles rest n) := by
  refine ⟨?_, ?_, ?_⟩
  · intro e he
    subst he
    rfl
  · intro info hinfo
    subst hinfo
    rfl
  · intro e rest
    rfl

theorem collector_cycle_policy_witness :
    collectNodeInfo (Except.error ("cannot read cpu info".toList))
      ⟨[], false⟩ = ⟨[], false⟩ ∧
    collectNodeInfo (Except.ok ⟨[0, 1], 2⟩) ⟨[], false⟩ =
      ⟨storageSet [] NodeCPUInfoKey ⟨[0, 1], 2⟩, true⟩ ∧
    runCollectCycles [Except.error ("cannot read cpu info".toList),
      Except.ok ⟨[0, 1], 2⟩] ⟨[], false⟩ =
      runCollectCycles [Except.ok ⟨[0, 1], 2⟩] ⟨[], false⟩ := by
  refine ⟨?_, ?_, ?_⟩
  · exact (collector_cycle_policy (Except.error ("cannot read cpu info".toList))
      ⟨[], false⟩).1 ("cannot read cpu info".toList) rfl
  · exact (collector_cycle_policy (Except.ok ⟨[0, 1], 2⟩) ⟨[], false⟩).2.1
      ⟨[0, 1], 2⟩ rfl
  · exact (collector_cycle_policy (Except.error ("cannot read cpu info".toList))
      ⟨[], false⟩).2.2 ("cannot read cpu info".toList) [Except.ok ⟨[0, 1], 2⟩]

/-- C8: when the configured collection interval is below one second,
`metricAdvisor.Run` returns `nil` immediately without setting up or
starting any collector; at or above the threshold it sets up and starts
exactly the enabled collectors and still returns `nil`. -/
theorem metricAdvisor_run_gate (cfg : AdvisorConfig)
    (cs : List CollectorView) :
    (cfg.collectResUsedIntervalNanos < nanosPerSecond →
      metricAdvisorRun cfg cs =
        { err := none, setupNames := [], startedNames := [] })
  ∧ (nanosPerSecond ≤ cfg.collectResUsedIntervalNanos →
      metricAdvisorRun cfg cs =
        { err := none,
          setupNames := metricAdvisorSetup cs,
          startedNames := (cs.filter (fun c => c.enabled)).map (fun c => c.name) })
  ∧ (metricAdvisorRun cfg cs).err = none := by
  refine ⟨?_, ?_, ?_⟩
  · intro h
    simp [metricAdvisorRun, h]
  · intro h
    simp [metricAdvisorRun, Nat.not_lt.mpr h]
  · unfold metricAdvisorRun
    split <;> rfl

theorem metricAdvisor_run_gate_witness :
    metricAdvisorRun ⟨0⟩ [⟨"nodeInfo".toList, true, false⟩] =
      { err := none, setupNames := [], startedNames := [] } ∧
    metricAdvisorRun ⟨nanosPerSecond⟩
      [⟨"nodeInfo".toList, true, false⟩, ⟨"off".toList, false, false⟩] =
      { err := none, setupNames := ["nodeInfo".toList],
        startedNames := ["nodeInfo".toList] } := by
  constructor
  · exact (metricAdvisor_run_gate ⟨0⟩ [⟨"nodeInfo".toList, true, false⟩]).1
      (by decide)
  · have := (metricAdvisor_run_gate ⟨nanosPerSecond⟩
      [⟨"nodeInfo".toList, true, false⟩, ⟨"off".toList, false, false⟩]).2.1
      (Nat.le_refl _)
    rw [this]
    rfl

/-- C9: `PodMeta.Key` is the empty string iff the meta or its pod
reference is absent; for present pods it is a function of the pod's
namespace and name only — pods differing in any other field get the same
key. -/
theorem podMeta_key_spec :
    (∀ x : Option PodMeta,
      (podMetaKey x = [] ↔ x = none ∨ ∃ m, x = some m ∧ m.pod = none))
  ∧ (∀ m1 m2 : PodMeta, ∀ p1 p2 : Pod,
      m1.pod = some p1 → m2.pod = some p2 →
      p1.nameSpace = p2.nameSpace → p1.name = p2.name →
      podMetaKey (some m1) = podMetaKey (some m2)) := by
  constructor
  · intro x
    rcases x with _ | m
    · simp [podMetaKey]
    · rcases hp : m.pod with _ | p
      · simp [podMetaKey, hp]
      · simp only [podMetaKey, hp]
        constructor
        · intro h
          exact absurd h (by simp [GetPodKey])
        · rintro (h | ⟨m', hm', hpod⟩)
          · exact absurd h (by simp)
          · rw [Option.some_inj.mp hm'] at hp
            rw [hp] at hpod
            exact absurd hpod (by simp)
  · intro m1 m2 p1 p2 h1 h2 hns hn
    simp only [podMetaKey, h1, h2, GetPodKey, hns, hn]

theorem podMeta_key_spec_witness :
    podMetaKey (some ⟨some ⟨"default".toList, "nginx".toList,
        "uid-1".toList, "7".toList, "Running".toList⟩,
      "kubepods.slice/a".toList⟩) =
    podMetaKey (some ⟨some ⟨"default".toList, "nginx".toList,
        "uid-2".toList, "9".toList, "Pending".toList⟩,
      "kubepods.slice/b".toList⟩) := by
  exact podMeta_key_spec.2
    ⟨some ⟨"default".toList, "nginx".toList, "uid-1".toList,
      "7".toList, "Running".toList⟩, "kubepods.slice/a".toList⟩
    ⟨some ⟨"default".toList, "nginx".toList, "uid-2".toList,
      "9".toList, "Pending".toList⟩, "kubepods.slice/b".toList⟩
    _ _ rfl rfl rfl rfl

/-- C10 counterexample: a `PodMeta` whose `Pod` reference is nil is deep-
copied without a panic — `DeepCopy` returns a copy with a nil pod, because
the generated `corev1.Pod.DeepCopy` is nil-safe; the claim that it
dereferences the nil pod and panics is false at this input. -/
theorem podMeta_deepCopy_nilPod_no_panic :
    podMetaDeepCopy (some ⟨none, "kubepods-burstable.slice".toList⟩) =
      some ⟨none, "kubepods-burstable.slice".toList⟩ ∧
    podMetaDeepCopy (some ⟨none, "kubepods-burstable.slice".toList⟩) ≠
      none := by
  exact ⟨rfl, by simp [podMetaDeepCopy]⟩

/-- C10 (amended): `PodMeta.DeepCopy` is total on every non-nil receiver,
including one with a nil `Pod` reference (it returns an independent copy
with a nil pod); only a nil receiver itself is dereferenced and panics. -/
theorem podMeta_deepCopy_total_on_present (m : PodMeta) :
    podMetaDeepCopy (some m) = some ⟨m.pod, m.cgroupDir⟩ ∧
    podMetaDeepCopy none = none := by
  constructor
  · cases hp : m.pod <;> simp [podMetaDeepCopy, podDeepCopy, hp]
  · rfl

end CfsQuotaBurst
